import Mathlib

/-!
Verification of the `data_sus` repository's local dataset store, analytical
HTTP endpoints, and agent tool-dispatch step, as a shallow embedding.

Sources embedded:
* `src/agentic/agent_tools/tools_utils/db/data_storage.py` (`SragDb`):
  SQLite table `data_sus` with a `UNIQUE` constraint over the full column
  tuple and `INSERT ... ON CONFLICT DO NOTHING`, plus `get_data`.
* `src/db/data_storage.py` (`SragDb`, the historical variant): the store
  class that `src/api/fast.py` actually imports (fast.py line 14).  Its
  `get_data` guard compares its argument against a list of STRING
  literals, so the int years the API passes are always rejected with
  `None`.
* `src/api/fast.py`: the `/summary`, `/report` and `/graphical_report`
  FastAPI handlers, bound to the `src/db` store.
* `src/agentic/agent.py` (`StatisticalAgent.call_tools`, graph wiring).

Modelling conventions:
* machine ints are `Int`; Python floats arising from percentage arithmetic
  are `ℚ` (all arithmetic involved is exact decimal division);
* SQLite `NULL` / pandas `NaN` is `Option.none`;
* code that can raise an uncaught exception is embedded in `Except String`;
  a returned structured-error payload is an `Except.ok` value whose
  `status` field is `"error"`.
-/

namespace DataSus

/-- A calendar date, the value space of the `DT_NOTIFIC` column
(after `pd.to_datetime`). -/
structure Date where
  y : Int
  m : Int
  d : Int
deriving DecidableEq, Repr

/-- One row of the SQLite table `data_sus`
(`SragDb._check_schema`, data_storage.py lines 41-57).  Every column of the
schema is nullable (there is no NOT NULL constraint), so each field is an
`Option`. -/
structure Row where
  year : Option Int
  SG_UF_NOT : Option String
  EVOLUCAO : Option Int
  DT_NOTIFIC : Option Date
  SEM_NOT : Option Int
  UTI : Option Int
  VACINA_COV : Option Int
  HOSPITAL : Option Int
deriving DecidableEq, Repr

/-- SQL three-valued equality on nullable column values, as used by SQLite
when checking a UNIQUE index: a comparison involving NULL is not true, so
two NULLs never compare equal (SQLite treats NULLs as distinct for UNIQUE
constraints). -/
def sqlEq {α : Type} [DecidableEq α] : Option α → Option α → Bool
  | some a, some b => a = b
  | _, _ => false

/-- Whether an incoming row conflicts with a stored row under the table's
`UNIQUE (year, SG_UF_NOT, EVOLUCAO, DT_NOTIFIC, SEM_NOT, UTI, VACINA_COV,
HOSPITAL)` constraint: SQL equality on every column of the tuple. -/
def rowConflict (a b : Row) : Bool :=
  sqlEq a.year b.year && sqlEq a.SG_UF_NOT b.SG_UF_NOT &&
  sqlEq a.EVOLUCAO b.EVOLUCAO && sqlEq a.DT_NOTIFIC b.DT_NOTIFIC &&
  sqlEq a.SEM_NOT b.SEM_NOT && sqlEq a.UTI b.UTI &&
  sqlEq a.VACINA_COV b.VACINA_COV && sqlEq a.HOSPITAL b.HOSPITAL

/-- Effect of executing the single-row
`INSERT INTO data_sus ... ON CONFLICT DO NOTHING` statement on the table:
the row is appended unless some stored row conflicts with it. -/
def insertRow (t : List Row) (r : Row) : List Row :=
  if t.any (fun x => rowConflict x r) then t else t ++ [r]

namespace SragDb

/-- `SragDb.insert` (data_storage.py lines 59-92): `None` data is rejected
with `False` before touching the table; otherwise `executemany` runs the
ON-CONFLICT-DO-NOTHING insert once per row, in order, and the method
returns `True`.  Result: (returned boolean, table after the call). -/
def insert (t : List Row) (data : Option (List Row)) : Bool × List Row :=
  match data with
  | none => (false, t)
  | some rows => (true, rows.foldl insertRow t)

/-- Argument of `SragDb.get_data`: a concrete year or the sentinel
`"all"`.  (Any other string argument behaves like an unsupported year,
falling into the same `not in` rejection branch.) -/
inductive YearArg where
  | all
  | y (n : Int)

/-- The years accepted by `get_data`'s `year not in [...]` guard. -/
def allowedYears : List Int := [2019, 2020, 2021, 2022, 2023, 2024, 2025]

/-- `SragDb.get_data` (data_storage.py lines 94-113): unsupported years are
rejected with `None` before any query; `"all"` selects the whole table;
a supported year selects rows with `WHERE year = <n>` (SQL equality, so a
NULL `year` never matches). -/
def get_data (t : List Row) : YearArg → Option (List Row)
  | .all => some t
  | .y n =>
      if n ∈ allowedYears then
        some (t.filter (fun r => sqlEq r.year (some n)))
      else
        none

end SragDb

namespace SrcDb

/-- A Python value passed to the `src/db` variant's `get_data`: the API
passes `request.year`, an int; the annotation says `str`.  Python
equality across the two types is always false. -/
inductive PyArg where
  | s (st : String)
  | i (n : Int)
deriving DecidableEq, Repr

/-- The whitelist of `get_data` in `src/db/data_storage.py` (line 73):
`["all", "2019", "2020", "2021", "2022", "2023", "2024", "2025"]` — all
STRING literals. -/
def allowedOptions : List PyArg :=
  [.s "all", .s "2019", .s "2020", .s "2021", .s "2022", .s "2023",
   .s "2024", .s "2025"]

/-- `SragDb.get_data` of `src/db/data_storage.py` (lines 72-92), the
store class `fast.py` imports (fast.py line 14).  The guard
`year not in ["all", "2019", ..., "2025"]` compares the argument against
string literals; an int equals no string in Python, so every int year
the API passes fails the guard and returns `None` before any query.  A
whitelisted string argument fares no better: the method then builds
`"SELECT * FROM srag" + f"WHERE year = '{year}'"` (no space before
`WHERE`, and `_check_schema` of this class creates only the `data_sus`
table, never `srag`), so `pd.read_sql_query` raises and the `except`
returns `None` too.  The method returns `None` on every input; the API
endpoints only ever reach the int branch. -/
def get_data (_t : List Row) (year : PyArg) : Option (List Row) :=
  if year ∉ allowedOptions then none
  else none

end SrcDb

/-- A row none of whose columns is NULL. -/
def rowTotal (r : Row) : Bool :=
  r.year.isSome && r.SG_UF_NOT.isSome && r.EVOLUCAO.isSome &&
  r.DT_NOTIFIC.isSome && r.SEM_NOT.isSome && r.UTI.isSome &&
  r.VACINA_COV.isSome && r.HOSPITAL.isSome

/-- A row with a NULL `UTI` column: all the other columns are set. -/
def nullUtiRow : Row :=
  { year := some 2021, SG_UF_NOT := some "SP", EVOLUCAO := some 1,
    DT_NOTIFIC := some ⟨2021, 6, 1⟩, SEM_NOT := some 22, UTI := none,
    VACINA_COV := some 1, HOSPITAL := some 1 }

/-- A fully populated row (no NULL column), for witnesses. -/
def fullRow : Row :=
  { year := some 2022, SG_UF_NOT := some "SP", EVOLUCAO := some 2,
    DT_NOTIFIC := some ⟨2022, 6, 1⟩, SEM_NOT := some 23, UTI := some 1,
    VACINA_COV := some 1, HOSPITAL := some 1 }

/-- The year whitelist of the `/report` and `/graphical_report` handlers
(fast.py lines 96 and 189). -/
def validReportYears : List Int := [2021, 2022, 2023, 2024, 2025]

/-- The granularity whitelist of the `/report` and `/graphical_report`
handlers (fast.py lines 107 and 199). -/
def validGranularities : List String := ["D", "ME", "SE", "M"]

/-- `ReportRequestSchema` (schemas.py): `state` defaults to `'all'`,
`granularity` to `'ME'`. -/
structure ReportRequest where
  year : Int
  starting_month : Int
  ending_month : Int
  state : Option String := some "all"
  granularity : String := "ME"

/-- The dict returned by the `/report` handler.  `report_msg` models the
extra `"report"` key carried only by the error branches (FastAPI's
response model drops it on the wire); the remaining fields are the
`ReportResponseSchema` fields. -/
structure ReportResult where
  status : String
  report_msg : Option String
  death_count : Int
  death_rate : ℚ
  total_cases : Int
  cases_hospitalized : Int
  perc_uti : ℚ
  perc_vaccinated : ℚ
deriving DecidableEq, Repr

/-- The zero-filled error payload every `/report` error branch returns. -/
def errReport (msg : String) : ReportResult :=
  { status := "error", report_msg := some msg, death_count := 0,
    death_rate := 0, total_cases := 0, cases_hospitalized := 0,
    perc_uti := 0, perc_vaccinated := 0 }

/-- Python `str.upper` restricted to ASCII, mapped over the characters
(the state codes involved are two-letter ASCII strings). -/
def pyUpper (s : String) : String := String.mk (s.data.map Char.toUpper)

/-- Python `str.lower` restricted to ASCII, mapped over the characters. -/
def pyLower (s : String) : String := String.mk (s.data.map Char.toLower)

/-- The report handler's state filter (fast.py lines 131-132):
`if request.state and request.state.lower() != 'all': data =
data[data['SG_UF_NOT'] == request.state.upper()]`.  A `None` state and
the empty string are falsy in Python and skip the filter; a NULL
`SG_UF_NOT` never equals the uppercased state. -/
def stateFiltered (rows : List Row) (s : Option String) : List Row :=
  match s with
  | none => rows
  | some st =>
      if st ≠ "" && pyLower st ≠ "all" then
        rows.filter (fun r => r.SG_UF_NOT == some (pyUpper st))
      else rows

/-- The report handler's date-window mask (fast.py lines 138-140) over the
parsed `DT_NOTIFIC`: calendar year equal to the requested year and month
inside `[starting_month, ending_month]`.  A NULL date (`NaT`) fails every
comparison. -/
def inWindow (req : ReportRequest) (r : Row) : Bool :=
  match r.DT_NOTIFIC with
  | none => false
  | some d =>
      d.y == req.year && req.starting_month ≤ d.m && d.m ≤ req.ending_month

/-- The filtered row set the report's metrics are computed over: the
requested year's rows, state-filtered, then masked by the date window. -/
def reportFiltered (t : List Row) (req : ReportRequest) : List Row :=
  (stateFiltered (t.filter (fun r => sqlEq r.year (some req.year)))
      req.state).filter (inWindow req)

/-- The success branch of `generate_report` (fast.py lines 134-182),
computing the metrics over the filtered set.  Each percentage divides by
the row count only under the `if total_count > 0` guard of the source. -/
def reportMetrics (filtered : List Row) : ReportResult :=
  let death_count : Int := filtered.countP (fun r => r.EVOLUCAO == some 2)
  let total_count : Int := filtered.length
  let death_rate : ℚ :=
    if total_count > 0 then (death_count : ℚ) / (total_count : ℚ) * 100 else 0
  let casos_internados : Int := filtered.countP (fun r => r.HOSPITAL == some 1)
  let uti_count : Int := filtered.countP (fun r => r.UTI == some 1)
  let perc_uti : ℚ :=
    if total_count > 0 then (uti_count : ℚ) / (total_count : ℚ) * 100 else 0
  let vaccinated_count : Int :=
    filtered.countP (fun r => r.VACINA_COV == some 1)
  let perc_vaccinated : ℚ :=
    if total_count > 0 then
      (vaccinated_count : ℚ) / (total_count : ℚ) * 100
    else 0
  { status := "success", report_msg := none, death_count := death_count,
    death_rate := death_rate, total_cases := total_count,
    cases_hospitalized := casos_internados, perc_uti := perc_uti,
    perc_vaccinated := perc_vaccinated }

/-- `generate_report` (fast.py lines 93-185): whitelist checks on year and
granularity, then the store read `db.get_data(request.year)` against the
`src/db` store the module imports; `None`/empty data short-circuits to
the "No data found for the specified year." error; otherwise the metrics
are computed over the state/date-filtered set and returned with status
`"success"`.  Since `SrcDb.get_data` returns `None` for every int year,
the metrics branch is unreachable in the program: every validated
request gets the no-data error. -/
def generate_report (t : List Row) (req : ReportRequest) : ReportResult :=
  if req.year ∉ validReportYears then errReport "Invalid year provided."
  else if req.granularity ∉ validGranularities then
    errReport "Invalid granularity provided."
  else
    match SrcDb.get_data t (SrcDb.PyArg.i req.year) with
    | none => errReport "No data found for the specified year."
    | some data =>
        if data.isEmpty then
          errReport "No data found for the specified year."
        else
          reportMetrics ((stateFiltered data req.state).filter (inWindow req))

/-- The spec's 10-row fixture: year 2022, state "SP", all dated June 2022,
3 deaths (`EVOLUCAO = 2`), 4 hospitalized, 2 in ICU, 5 vaccinated. -/
def fixtureRows : List Row :=
  (List.range 10).map (fun i =>
    { year := some 2022, SG_UF_NOT := some "SP",
      EVOLUCAO := some (if i < 3 then 2 else 1),
      DT_NOTIFIC := some ⟨2022, 6, (i : Int) + 1⟩, SEM_NOT := some 23,
      UTI := some (if i < 2 then 1 else 0),
      VACINA_COV := some (if i < 5 then 1 else 0),
      HOSPITAL := some (if i < 4 then 1 else 0) })

/-- The report request of the spec's fixture: year 2022, month window
June-June, state "SP". -/
def fixtureReq : ReportRequest :=
  { year := 2022, starting_month := 6, ending_month := 6,
    state := some "SP", granularity := "ME" }

/-- One stored 2022 row in state RJ: the year's data is nonempty, but an
SP state filter empties the filtered set. -/
def rjRow : Row :=
  { year := some 2022, SG_UF_NOT := some "RJ", EVOLUCAO := some 1,
    DT_NOTIFIC := some ⟨2022, 3, 1⟩, SEM_NOT := some 9, UTI := some 0,
    VACINA_COV := some 1, HOSPITAL := some 0 }

/-- A 2022 report request filtered to state SP over the full year. -/
def spReq : ReportRequest :=
  { year := 2022, starting_month := 1, ending_month := 12,
    state := some "SP", granularity := "ME" }

/-- Lexicographic strict order on dates (year, then month, then day). -/
def dateLtB (a b : Date) : Bool :=
  if a.y < b.y then true
  else if a.y = b.y then
    if a.m < b.m then true
    else if a.m = b.m then decide (a.d < b.d)
    else false
  else false

/-- The value `pd.to_datetime(0)` (the Unix epoch) that a NULL
`DT_NOTIFIC` becomes after the graphical handler's `fillna(0)` followed
by `pd.to_datetime`. -/
def epochDate : Date := ⟨1970, 1, 1⟩

/-- The `(DT_NOTIFIC, SG_UF_NOT)` grouping key of a row after
`fillna(0)`: a NULL date becomes the epoch, and the integer 0 filling a
NULL state is rendered as the string `"0"` (distinct from every
two-letter state code). -/
def keyOf (r : Row) : Date × String :=
  (r.DT_NOTIFIC.getD epochDate, r.SG_UF_NOT.getD "0")

/-- Strict code-point lexicographic order on character lists (Python's
string comparison, used by pandas when sorting the state level of the
group index). -/
def charListLt : List Char → List Char → Bool
  | [], [] => false
  | [], _ :: _ => true
  | _ :: _, [] => false
  | a :: as, b :: bs =>
      if a.toNat < b.toNat then true
      else if a.toNat = b.toNat then charListLt as bs
      else false

/-- Strict lexicographic order on strings by code point. -/
def strLt (a b : String) : Bool := charListLt a.data b.data

/-- Strict lexicographic order on grouping keys: date, then state string
(pandas sorts a two-level group index by its levels in order). -/
def keyLt (a b : Date × String) : Bool :=
  dateLtB a.1 b.1 || (a.1 == b.1 && strLt a.2 b.2)

/-- Insert a key into an ascending duplicate-free key list. -/
def insertKey (k : Date × String) : List (Date × String) →
    List (Date × String)
  | [] => [k]
  | x :: xs =>
      if keyLt k x then k :: x :: xs
      else if k = x then x :: xs
      else x :: insertKey k xs

/-- The row index of
`data.fillna(0).groupby(['DT_NOTIFIC','SG_UF_NOT']).count()`: the
distinct grouping keys of the rows, in ascending order. -/
def groupKeys (data : List Row) : List (Date × String) :=
  data.foldl (fun acc r => insertKey (keyOf r) acc) []

/-- Gregorian leap-year test. -/
def isLeap (y : Int) : Bool :=
  (y % 4 == 0 && y % 100 != 0) || y % 400 == 0

/-- Number of days of a Gregorian month. -/
def daysInMonth (y m : Int) : Int :=
  if m = 2 then (if isLeap y then 29 else 28)
  else if m = 4 ∨ m = 6 ∨ m = 9 ∨ m = 11 then 30
  else 31

/-- The day after a date. -/
def nextDay (d : Date) : Date :=
  if d.d < daysInMonth d.y d.m then ⟨d.y, d.m, d.d + 1⟩
  else if d.m < 12 then ⟨d.y, d.m + 1, 1⟩
  else ⟨d.y + 1, 1, 1⟩

/-- Daily enumeration from `start` to `stop` inclusive, fuelled (the fuel
below always covers the real span). -/
def dayRange (fuel : Nat) (start stop : Date) : List Date :=
  match fuel with
  | 0 => []
  | fuel + 1 =>
      if start = stop then [start]
      else start :: dayRange fuel (nextDay start) stop

/-- Fuel bound for `dayRange`: 366 days per calendar year spanned. -/
def dayFuel (start stop : Date) : Nat :=
  366 * ((stop.y - start.y).toNat + 2)

/-- Fold-minimum of a date list under `dateLtB`. -/
def dateMin (d0 : Date) (l : List Date) : Date :=
  l.foldl (fun a b => if dateLtB b a then b else a) d0

/-- Fold-maximum of a date list under `dateLtB`. -/
def dateMax (d0 : Date) (l : List Date) : Date :=
  l.foldl (fun a b => if dateLtB a b then b else a) d0

/-- Linear month index of a date. -/
def monthIdx (d : Date) : Int := d.y * 12 + (d.m - 1)

/-- The month-end date labelling a month index (pandas month-end bucket
labels for `ME`/`M`). -/
def monthEndOfIdx (idx : Int) : Date :=
  let y := idx.ediv 12
  let m := idx.emod 12 + 1
  ⟨y, m, daysInMonth y m⟩

/-- `pandas.DataFrame.resample(granularity).count()` on a date index:
buckets run from the index minimum to the index maximum at the requested
step (missing buckets appear with count 0), and each bucket counts the
index entries falling in it.  `"D"` is daily; `"ME"` and `"M"` are both
month-end monthly.  Any other alias — in particular the validated but
non-pandas code `"SE"` — makes pandas raise `ValueError: Invalid
frequency`, modelled as `none`. -/
def resample (gran : String) (dates : List Date) :
    Option (List (Date × Nat)) :=
  if gran = "D" then
    some (match dates with
      | [] => []
      | d :: ds =>
          let start := dateMin d ds
          let stop := dateMax d ds
          (dayRange (dayFuel start stop) start stop).map
            (fun day => (day, dates.countP (fun x => x = day))))
  else if gran = "ME" ∨ gran = "M" then
    some (match dates with
      | [] => []
      | d :: ds =>
          let i := monthIdx (dateMin d ds)
          let j := monthIdx (dateMax d ds)
          (if i > j then [] else
            (List.range ((j - i).toNat + 1)).map (fun k => i + (k : Int))).map
            (fun idx =>
              (monthEndOfIdx idx,
                dates.countP (fun x => monthIdx x = idx))))
  else none

/-- `GraphicalReportRequestSchema` (schemas.py): `granularity` defaults
to `'ME'`, `state` to `None`. -/
structure GraphRequest where
  year : Int
  granularity : String := "ME"
  state : Option String := none

/-- The dict returned by the `/graphical_report` handler.  `status`
models the extra `"status"` key carried only by the error branches
(dropped by the response model); the rest are the
`GraphicalReportResponseSchema` fields. -/
structure GraphResponse where
  status : Option String
  x : List String
  y : List Int
  total_points : Int
  state : String
  granularity : String
  message : String
deriving DecidableEq, Repr

/-- The handler's echo of the requested state: `request.state` when
truthy, else `"all"` (both the error branches'
`request.state if request.state else "all"` and the success branch's
`request.state or "all"`). -/
def stateEcho (s : Option String) : String :=
  match s with
  | none => "all"
  | some st => if st = "" then "all" else st

/-- The error payload of the `/graphical_report` error branches. -/
def graphErr (req : GraphRequest) (msg : String) : GraphResponse :=
  { status := some "error", x := [], y := [], total_points := 0,
    state := stateEcho req.state, granularity := req.granularity,
    message := msg }

/-- The group index surviving the handler's optional state filter
(`grouped[grouped['SG_UF_NOT'] == request.state]`, applied only when
`request.state` is truthy; note: no case normalization here). -/
def seriesKeys (data : List Row) (s : Option String) :
    List (Date × String) :=
  match s with
  | some st =>
      if st ≠ "" then (groupKeys data).filter (fun k => k.2 == st)
      else groupKeys data
  | none => groupKeys data

/-- Two-digit zero padding of `strftime`. -/
def pad2 (n : Int) : String :=
  if 0 ≤ n ∧ n < 10 then "0" ++ toString n else toString n

/-- `strftime('%Y-%m-%d')` on a date (years of the data are 4-digit). -/
def fmtDate (d : Date) : String :=
  toString d.y ++ "-" ++ pad2 d.m ++ "-" ++ pad2 d.d

/-- `generate_graphical_report` (fast.py lines 187-256): year and
granularity whitelists, the store read and emptiness check, then
`fillna(0).groupby(['DT_NOTIFIC','SG_UF_NOT']).count()`, an optional
state filter on the group rows (no case normalization here), and
`set_index('DT_NOTIFIC').resample(granularity).count()` over the group
index; `x` holds the formatted bucket dates, `y` the per-bucket counts of
the `year` column (one count per surviving group row).  Exceptions raised
while regrouping (the invalid pandas frequency `"SE"`) are logged and
re-raised, modelled as `Except.error`.  The store read goes to the
`src/db` store the module imports, which returns `None` for every int
year, so every validated request takes the no-data branch and the
group/resample code is unreachable in the program. -/
def generate_graphical_report (t : List Row) (req : GraphRequest) :
    Except String GraphResponse :=
  if req.year ∉ validReportYears then
    .ok (graphErr req "Invalid year provided.")
  else if req.granularity ∉ validGranularities then
    .ok (graphErr req "Invalid granularity provided.")
  else
    match SrcDb.get_data t (SrcDb.PyArg.i req.year) with
    | none => .ok (graphErr req "No data found for the specified year.")
    | some data =>
        if data.isEmpty then
          .ok (graphErr req "No data found for the specified year.")
        else
          match resample req.granularity
              ((seriesKeys data req.state).map (fun k => k.1)) with
          | none => .error "ValueError: Invalid frequency"
          | some buckets =>
              .ok { status := none,
                    x := buckets.map (fun b => fmtDate b.1),
                    y := buckets.map (fun b => (b.2 : Int)),
                    total_points := buckets.length,
                    state := stateEcho req.state,
                    granularity := req.granularity,
                    message := "Graphical report generated successfully." }

/-- Two distinct 2022 rows sharing notification date and state: the
failing input of the series row-count claim. -/
def c4Rows : List Row :=
  [{ year := some 2022, SG_UF_NOT := some "SP", EVOLUCAO := some 1,
     DT_NOTIFIC := some ⟨2022, 6, 1⟩, SEM_NOT := some 22, UTI := some 0,
     VACINA_COV := some 1, HOSPITAL := some 0 },
   { year := some 2022, SG_UF_NOT := some "SP", EVOLUCAO := some 2,
     DT_NOTIFIC := some ⟨2022, 6, 1⟩, SEM_NOT := some 22, UTI := some 1,
     VACINA_COV := some 0, HOSPITAL := some 1 }]

/-- A daily, state-free series request for 2022. -/
def c4Req : GraphRequest := { year := 2022, granularity := "D" }

/-- A graphical-report request carrying the empty string as state. -/
def emptyStateReq : GraphRequest :=
  { year := 2030, granularity := "ME", state := some "" }

/-- A valid daily series request with no state filter, for witnesses. -/
def c10Req : GraphRequest := { year := 2022, granularity := "D" }

/-- One value of a DataFrame column after the summary handler's
`fillna(-1)`: an integer (also the `-1` fill), a string (`SG_UF_NOT`), or
a date (`DT_NOTIFIC`). -/
inductive Cell where
  | i (n : Int)
  | s (st : String)
  | d (dt : Date)
deriving DecidableEq, Repr

/-- Type rank used to totalize the cell order across types.  (pandas
raises a `TypeError` when asked to sort mixed-type categories, which here
can arise only when a string/date column contains `-1` fills; no theorem
below depends on that corner, so the embedding totalizes the order.) -/
def cellRank : Cell → Nat
  | .i _ => 0
  | .d _ => 1
  | .s _ => 2

/-- Strict order on cells: by value within a type, by rank across. -/
def cellLt (a b : Cell) : Bool :=
  match a, b with
  | .i x, .i y => decide (x < y)
  | .d x, .d y => dateLtB x y
  | .s x, .s y => strLt x y
  | _, _ => decide (cellRank a < cellRank b)

/-- The value of a named DataFrame column in a row, after `fillna(-1)`
(a NULL becomes the integer `-1`).  Unknown column names — including the
lowercase `year`, which an uppercased request name never matches — yield
`none`, the embedded `KeyError`. -/
def colCell (r : Row) : String → Option Cell
  | "SG_UF_NOT" =>
      some (match r.SG_UF_NOT with | some st => .s st | none => .i (-1))
  | "EVOLUCAO" =>
      some (match r.EVOLUCAO with | some n => .i n | none => .i (-1))
  | "DT_NOTIFIC" =>
      some (match r.DT_NOTIFIC with | some dt => .d dt | none => .i (-1))
  | "SEM_NOT" =>
      some (match r.SEM_NOT with | some n => .i n | none => .i (-1))
  | "UTI" =>
      some (match r.UTI with | some n => .i n | none => .i (-1))
  | "VACINA_COV" =>
      some (match r.VACINA_COV with | some n => .i n | none => .i (-1))
  | "HOSPITAL" =>
      some (match r.HOSPITAL with | some n => .i n | none => .i (-1))
  | _ => none

/-- Insert a cell into an ascending duplicate-free list. -/
def insertCell (c : Cell) : List Cell → List Cell
  | [] => [c]
  | x :: xs =>
      if cellLt c x then c :: x :: xs
      else if c = x then x :: xs
      else x :: insertCell c xs

/-- The ordered category list of `pd.Categorical(values, ordered=True)`:
the distinct values, sorted ascending. -/
def categoriesOf (cells : List Cell) : List Cell :=
  cells.foldl (fun acc c => insertCell c acc) []

/-- Index of a cell in a category list (its categorical code). -/
def idxOf (c : Cell) : List Cell → Nat
  | [] => 0
  | x :: xs => if x = c then 0 else idxOf c xs + 1

/-- Ascending insertion for the sort inside the median. -/
def insertNat (n : Nat) : List Nat → List Nat
  | [] => [n]
  | x :: xs => if n ≤ x then n :: x :: xs else x :: insertNat n xs

/-- Ascending insertion sort on naturals. -/
def sortNat (l : List Nat) : List Nat := l.foldr insertNat []

/-- `np.median` on the categorical codes: the middle sorted value, or the
mean of the two middle values for an even count.  (`np.median` of an
empty array is the float NaN; the embedding returns 0 there, a corner no
theorem relies on.) -/
def npMedian (l : List Nat) : ℚ :=
  let s := sortNat l
  let n := s.length
  if n = 0 then 0
  else if n % 2 = 1 then (s.getD (n / 2) 0 : ℚ)
  else ((s.getD (n / 2 - 1) 0 : ℚ) + (s.getD (n / 2) 0 : ℚ)) / 2

/-- First-appearance list of distinct cells. -/
def distinctCells (cells : List Cell) : List Cell :=
  cells.foldl (fun acc c => if c ∈ acc then acc else acc ++ [c]) []

/-- Insertion used to order value counts descending by count
(`pd.value_counts`; the order among tied counts is not specified by
pandas, and no theorem below depends on it). -/
def insertByCountDesc (p : Cell × Nat) :
    List (Cell × Nat) → List (Cell × Nat)
  | [] => [p]
  | q :: qs =>
      if q.2 < p.2 then p :: q :: qs else q :: insertByCountDesc p qs

/-- The `{median, freq}` summary of one column's values
(fast.py lines 83-87): the median of the ordered-categorical codes and
the per-category counts of `value_counts().to_numpy().tolist()`. -/
structure ColSummary where
  median : ℚ
  freq : List Nat
deriving DecidableEq, Repr

/-- Summary of one column's cells. -/
def summarizeColumn (cells : List Cell) : ColSummary :=
  let cats := categoriesOf cells
  let codes := cells.map (fun c => idxOf c cats)
  let counts := (distinctCells cells).map
    (fun c => (c, cells.countP (fun x => x = c)))
  { median := npMedian codes,
    freq := (counts.foldr insertByCountDesc []).map (fun p => p.2) }

/-- `SummaryRequestSchema` (schemas.py): both fields required. -/
structure SummaryRequest where
  years : List Int
  columns : List String

/-- The dict returned by the `/summary` handler. -/
structure SummaryResponse where
  status : String
  summaries : List (Int × List (String × ColSummary))
deriving Repr

/-- `summarize_data` (fast.py lines 70-91).  There is no validation of
years or columns: the handler uppercases the requested columns, defaults
an empty year list to 2021-2025, and immediately calls `db.get_data` per
year — against the `src/db` store the module imports.  When `get_data`
returns `None` (which it does for every int year, string whitelist vs
int argument), `year_data.fillna(-1)` raises `AttributeError` out of the
endpoint (embedded as `Except.error`); an unknown column raises
`KeyError` likewise.  The per-year/per-column `{median, freq}` summary
code below is the source's, though no int year can reach it. -/
def summarize_data (t : List Row) (req : SummaryRequest) :
    Except String SummaryResponse :=
  let columns := req.columns.map pyUpper
  let years :=
    if req.years.isEmpty then [2021, 2022, 2023, 2024, 2025]
    else req.years
  ((years.foldlM (fun (acc : List (Int × List (String × ColSummary))) year =>
      match SrcDb.get_data t (SrcDb.PyArg.i year) with
      | none =>
          Except.error "AttributeError: NoneType object has no attribute fillna"
      | some rows =>
          (columns.foldlM
              (fun (cacc : List (String × ColSummary)) col =>
                match rows.mapM (fun r => colCell r col) with
                | none => Except.error ("KeyError: " ++ col)
                | some cells =>
                    Except.ok (cacc ++ [(col, summarizeColumn cells)]))
              []).map (fun cols => acc ++ [(year, cols)])) []
    : Except String (List (Int × List (String × ColSummary))))).map
    (fun l =>
      if l.isEmpty then { status := "error", summaries := [] }
      else { status := "success", summaries := l })

/-- One structured tool call issued by the LLM in an assistant turn
(`ToolMessage` dispatch of `call_tools`).  `Args` is the opaque type of
the call's argument mapping. -/
structure ToolCall (Args : Type) where
  name : String
  args : Args
  id : String
deriving DecidableEq, Repr

/-- The JSON text content of a tool-result turn: `json.dumps` of the
serialized successful result, or `json.dumps` of the per-call exception
dict carrying the exception text under `error` and the tool name under
`tool`. -/
inductive ToolContent where
  | payload (s : String)
  | errorPayload (error : String) (tool : String)
deriving DecidableEq, Repr

/-- A tool-result turn appended by `call_tools`: content, the originating
call's identifier (`tool_call_id`), and the tool name. -/
structure ToolMsg where
  content : ToolContent
  tool_call_id : String
  name : String
deriving DecidableEq, Repr

/-- A conversation turn of `ReportInfo.messages`. -/
inductive Msg (Args : Type) where
  | system (content : String)
  | human (content : String)
  | ai (content : String) (tool_calls : List (ToolCall Args))
  | toolResult (m : ToolMsg)
deriving DecidableEq, Repr

/-- `StatisticalAgent.call_tools` (agent.py lines 114-185), relative to
an opaque execution function.  `coerce` is the per-tool argument coercion
of lines 127-143; `invoke` stands for the whole `try` body — tool
invocation, dict-boxing of non-dict results, and JSON serialization —
returning the dumped payload text, or `Except.error` with the exception
text when anything in the body raises.  For every call of the latest
assistant turn exactly one tool message is produced, in order: the
payload on success, the `{error: str(e), tool: tool_name}` dict on a
per-call exception.  The function is total: no exception escapes the
loop. -/
def call_tools {Args : Type} (coerce : String → Args → Args)
    (invoke : String → Args → Except String String)
    (calls : List (ToolCall Args)) : List ToolMsg :=
  calls.map (fun c =>
    match invoke c.name (coerce c.name c.args) with
    | .ok s =>
        { content := .payload s, tool_call_id := c.id, name := c.name }
    | .error e =>
        { content := .errorPayload e c.name, tool_call_id := c.id,
          name := c.name })

/-- The nodes of the agent's graph (`_init_graph`): `assistant`, `tools`
and the terminal node. -/
inductive GraphNode where
  | assistantNode
  | toolsNode
  | doneNode
deriving DecidableEq, Repr

/-- `should_continue` (agent.py lines 187-193): to `tools` iff the latest
message is an assistant turn carrying a nonempty tool-call list,
otherwise terminate. -/
def should_continue {Args : Type} (msgs : List (Msg Args)) : GraphNode :=
  match msgs.getLast? with
  | some (.ai _ tcs) => if tcs.isEmpty then .doneNode else .toolsNode
  | _ => .doneNode

/-- The tool calls of the latest message (`last_message.tool_calls`). -/
def lastToolCalls {Args : Type} (msgs : List (Msg Args)) :
    List (ToolCall Args) :=
  match msgs.getLast? with
  | some (.ai _ tcs) => tcs
  | _ => []

/-- One step of the compiled graph.  At `assistant` the bound LLM (the
oracle parameter `llm`, covering the system-message prepending and the
model call) produces the node's new `messages` value and
`should_continue` picks the next node; at `tools`, `call_tools` runs and
the unconditional `tools -> assistant` edge hands control back to the
assistant.  Each node returns only the `messages` key, which the
langgraph state update (no reducer is declared on `ReportInfo.messages`)
replaces wholesale.  Both node functions are total, so a run never aborts
on a tool exception. -/
def graphStep {Args : Type} (coerce : String → Args → Args)
    (invoke : String → Args → Except String String)
    (llm : List (Msg Args) → List (Msg Args)) :
    GraphNode × List (Msg Args) → GraphNode × List (Msg Args)
  | (.assistantNode, msgs) => (should_continue (llm msgs), llm msgs)
  | (.toolsNode, msgs) =>
      (.assistantNode,
        (call_tools coerce invoke (lastToolCalls msgs)).map Msg.toolResult)
  | (.doneNode, msgs) => (.doneNode, msgs)

/-- A concrete tool call for witnesses. -/
def demoCall : ToolCall String :=
  { name := "generate_statistical_report", args := "raw", id := "call_1" }

/-- A latest assistant turn carrying `demoCall`. -/
def demoMsgs : List (Msg String) := [Msg.ai "go" [demoCall]]

/-- An execution function whose every invocation raises. -/
def demoInvoke : String → String → Except String String :=
  fun _ _ => Except.error "boom"

/-- An identity argument coercion. -/
def demoCoerce : String → String → String := fun _ a => a

/-- An identity LLM oracle (unused by the tools step). -/
def demoLlm : List (Msg String) → List (Msg String) := fun m => m

lemma sqlEq_self {α : Type} [DecidableEq α] (o : Option α) (h : o.isSome) :
    sqlEq o o = true := by
  cases o with
  | none => simp [Option.isSome] at h
  | some a => simp [sqlEq]

lemma rowConflict_self (r : Row) (h : rowTotal r = true) :
    rowConflict r r = true := by
  unfold rowTotal at h
  simp only [Bool.and_eq_true] at h
  obtain ⟨⟨⟨⟨⟨⟨⟨h1, h2⟩, h3⟩, h4⟩, h5⟩, h6⟩, h7⟩, h8⟩ := h
  unfold rowConflict
  simp only [Bool.and_eq_true]
  exact ⟨⟨⟨⟨⟨⟨⟨sqlEq_self _ h1, sqlEq_self _ h2⟩, sqlEq_self _ h3⟩,
    sqlEq_self _ h4⟩, sqlEq_self _ h5⟩, sqlEq_self _ h6⟩,
    sqlEq_self _ h7⟩, sqlEq_self _ h8⟩

lemma mem_insertRow (t : List Row) (r x : Row) (h : x ∈ t) :
    x ∈ insertRow t r := by
  unfold insertRow
  split
  · exact h
  · exact List.mem_append_left _ h

lemma insertRow_conflict (t : List Row) (r : Row)
    (hr : rowConflict r r = true) :
    ∃ x ∈ insertRow t r, rowConflict x r = true := by
  unfold insertRow
  split
  · next hc =>
      obtain ⟨x, hx, hxc⟩ := List.any_eq_true.mp hc
      exact ⟨x, hx, hxc⟩
  · exact ⟨r, List.mem_append_right _ (List.mem_singleton.mpr rfl), hr⟩

lemma mem_foldl_insertRow (rows : List Row) (t : List Row) (x : Row)
    (h : x ∈ t) : x ∈ rows.foldl insertRow t := by
  induction rows generalizing t with
  | nil => exact h
  | cons r rest ih => exact ih _ (mem_insertRow _ _ _ h)

lemma foldl_insertRow_conflict (rows : List Row) (t : List Row)
    (hr : ∀ r ∈ rows, rowConflict r r = true) :
    ∀ r ∈ rows, ∃ x ∈ rows.foldl insertRow t, rowConflict x r = true := by
  induction rows generalizing t with
  | nil => intro r hmem; cases hmem
  | cons r0 rest ih =>
      intro r hmem
      rcases List.mem_cons.mp hmem with h | h
      · subst h
        obtain ⟨x, hx, hxc⟩ :=
          insertRow_conflict t r (hr r (List.mem_cons_self _ _))
        exact ⟨x, mem_foldl_insertRow rest _ x hx, hxc⟩
      · exact ih _ (fun a ha => hr a (List.mem_cons_of_mem _ ha)) r h

lemma insertRow_of_conflict (t : List Row) (r : Row)
    (h : ∃ x ∈ t, rowConflict x r = true) : insertRow t r = t := by
  unfold insertRow
  rw [if_pos]
  exact List.any_eq_true.mpr (by obtain ⟨x, hx, hxc⟩ := h; exact ⟨x, hx, hxc⟩)

lemma foldl_insertRow_fixed (rows : List Row) (t : List Row)
    (h : ∀ r ∈ rows, ∃ x ∈ t, rowConflict x r = true) :
    rows.foldl insertRow t = t := by
  induction rows with
  | nil => rfl
  | cons r0 rest ih =>
      have h0 : insertRow t r0 = t :=
        insertRow_of_conflict t r0 (h r0 (List.mem_cons_self _ _))
      simp only [List.foldl_cons, h0]
      exact ih (fun r hr => h r (List.mem_cons_of_mem _ hr))

lemma sqlEq_some_iff {α : Type} [DecidableEq α] (o : Option α) (a : α) :
    sqlEq o (some a) = true ↔ o = some a := by
  cases o with
  | none => simp [sqlEq]
  | some b => simp [sqlEq]

/-- C2 counterexample: the claim "inserting the same batch a second time
leaves the table's row count unchanged" is false for a batch containing a
row with a NULL column.  SQLite's UNIQUE index treats NULLs as distinct,
so the conflict clause never fires for `nullUtiRow`: inserting the
one-row batch twice into an empty table yields two rows, not one. -/
theorem insert_null_row_not_idempotent :
    (SragDb.insert (SragDb.insert [] (some [nullUtiRow])).2
        (some [nullUtiRow])).2.length ≠
      (SragDb.insert [] (some [nullUtiRow])).2.length := by
  decide

/-- C2 (amended): the store's insert is idempotent for every batch of rows
none of whose columns is NULL: for such batches a row conflicts with an
equal stored copy of itself, so re-inserting the batch changes nothing
(returned boolean and table contents included). -/
theorem insert_idempotent_of_no_nulls (t : List Row) (rows : List Row)
    (h : ∀ r ∈ rows, rowTotal r = true) :
    SragDb.insert (SragDb.insert t (some rows)).2 (some rows) =
      SragDb.insert t (some rows) := by
  unfold SragDb.insert
  simp only [Prod.mk.injEq, true_and]
  exact foldl_insertRow_fixed rows _
    (foldl_insertRow_conflict rows t (fun r hr => rowConflict_self r (h r hr)))

/-- C2 witness: the amended idempotence theorem applied to a concrete
NULL-free one-row batch over the empty table. -/
theorem insert_idempotent_of_no_nulls_witness :
    SragDb.insert (SragDb.insert [] (some [fullRow])).2 (some [fullRow]) =
      SragDb.insert [] (some [fullRow]) :=
  insert_idempotent_of_no_nulls [] [fullRow] (by decide)

/-- C7: `get_data 2023` returns exactly the stored rows whose `year`
column equals 2023; `get_data "all"` returns the whole table (the union
of all inserted years); `get_data 2030` returns the distinct `None`
("unsupported year") signal before any query; and a supported year over a
table holding no row of that year returns an empty table, not an error. -/
theorem get_data_spec (t : List Row) :
    (∃ rows, SragDb.get_data t (SragDb.YearArg.y 2023) = some rows ∧
        ∀ r, r ∈ rows ↔ r ∈ t ∧ r.year = some 2023) ∧
    SragDb.get_data t SragDb.YearArg.all = some t ∧
    SragDb.get_data t (SragDb.YearArg.y 2030) = none ∧
    (∀ n : Int, n ∈ SragDb.allowedYears →
      (∀ r ∈ t, r.year ≠ some n) →
      SragDb.get_data t (SragDb.YearArg.y n) = some []) := by
  refine ⟨⟨t.filter (fun r => sqlEq r.year (some 2023)), ?_, ?_⟩, rfl, ?_, ?_⟩
  · simp only [SragDb.get_data]
    rw [if_pos (by decide)]
  · intro r
    rw [List.mem_filter, sqlEq_some_iff]
  · simp only [SragDb.get_data]
    rw [if_neg (by decide)]
  · intro n hn hnone
    simp only [SragDb.get_data]
    rw [if_pos hn]
    congr 1
    rw [List.filter_eq_nil_iff]
    intro r hr
    simp only [Bool.not_eq_true]
    rw [Bool.eq_false_iff]
    intro hc
    exact hnone r hr ((sqlEq_some_iff _ _).mp hc)

/-- C7 witness: the specification of `get_data` instantiated on a concrete
two-row table, with the supported-year-but-no-rows part discharged at
year 2024. -/
theorem get_data_spec_witness :
    SragDb.get_data [fullRow, nullUtiRow] (SragDb.YearArg.y 2024) =
      some [] := by
  have h := (get_data_spec [fullRow, nullUtiRow]).2.2.2
  exact h 2024 (by decide) (by decide)

/-- C9: at the insert boundary only the Python argument `None` is rejected
(`insert` returns `False` and leaves the table untouched); an empty list
of rows is accepted: `insert([])` returns `True` and leaves the table
contents unchanged. -/
theorem insert_boundary_none_empty :
    (∀ t : List Row, SragDb.insert t none = (false, t)) ∧
    (∀ t : List Row, SragDb.insert t (some []) = (true, t)) :=
  ⟨fun _ => rfl, fun _ => rfl⟩

/-- C1 (code bug): at the spec's 10-row fixture (year 2022, state "SP",
month 6) — indeed at every request — the `/report` handler returns the
zeroed "No data found for the specified year." error instead of the
claimed metrics (`total_cases = 10`, `death_count = 3`,
`death_rate = 30`, ...): fast.py imports the `src/db` store, whose
`get_data` compares the int `request.year` against string literals and
returns `None` for every int year, so the metrics code of fast.py lines
134-182 is unreachable. -/
theorem report_fixture_returns_no_data :
    generate_report fixtureRows fixtureReq =
      errReport "No data found for the specified year." ∧
    (generate_report fixtureRows fixtureReq).status = "error" ∧
    (generate_report fixtureRows fixtureReq).total_cases = 0 ∧
    (fixtureRows.length : Int) = 10 := by
  refine ⟨?_, ?_, ?_, ?_⟩ <;> decide

/-- C5 (code bug): with one stored 2022 row (state RJ) and the 2022
report filtered to state SP — a valid year with stored rows whose
state/month filter leaves zero rows — the handler returns the fixed
year-level "No data found for the specified year." payload: it is
triggered by the store read returning `None` for every int year, not by
the empty filtered set, and is emitted although the 2022 data is
nonempty; no "no data for this period/state" error exists anywhere in
the handler (and had the store read worked, fast.py lines 134-182 would
return a zeroed success response for this input). -/
theorem report_empty_filter_no_period_state_error :
    reportFiltered [rjRow] spReq = [] ∧
    [rjRow].filter (fun r => sqlEq r.year (some (2022 : Int))) ≠ [] ∧
    generate_report [rjRow] spReq =
      errReport "No data found for the specified year." := by
  refine ⟨?_, ?_, ?_⟩ <;> decide

/-- C6: whenever the filtered row set of a report request is empty, all
three computed percentages (`death_rate`, `perc_uti`, `perc_vaccinated`)
are exactly 0, over every branch of the handler: the error branches
return zeroed percentages, and in the success branch the
`if total_count > 0` guard keeps the division from being evaluated with a
zero divisor. -/
theorem report_empty_percentages_zero (t : List Row) (req : ReportRequest)
    (h : reportFiltered t req = []) :
    (generate_report t req).death_rate = 0 ∧
    (generate_report t req).perc_uti = 0 ∧
    (generate_report t req).perc_vaccinated = 0 := by
  by_cases hy : req.year ∈ validReportYears
  · by_cases hg : req.granularity ∈ validGranularities
    · unfold generate_report
      rw [if_neg (not_not_intro hy), if_neg (not_not_intro hg)]
      exact ⟨rfl, rfl, rfl⟩
    · unfold generate_report
      rw [if_neg (not_not_intro hy), if_pos hg]
      exact ⟨rfl, rfl, rfl⟩
  · unfold generate_report
    rw [if_pos hy]
    exact ⟨rfl, rfl, rfl⟩

/-- C6 witness: the zero-percentages theorem instantiated on the RJ-row
store and the SP-filtered request, whose filtered set is empty. -/
theorem report_empty_percentages_zero_witness :
    (generate_report [rjRow] spReq).death_rate = 0 ∧
    (generate_report [rjRow] spReq).perc_uti = 0 ∧
    (generate_report [rjRow] spReq).perc_vaccinated = 0 :=
  report_empty_percentages_zero [rjRow] spReq (by decide)

/-- C4 (code bug): at daily granularity over a non-empty store (two
distinct 2022 rows sharing notification date and state) the series
handler returns the "No data found for the specified year." payload with
`x = []`, `y = []`, `total_points = 0`, so `sum(y) = 0` while the store
holds 2 input rows: fast.py imports the `src/db` store, whose `get_data`
returns `None` for every int year, so no request ever reaches the
group/resample code (which, were it reached, would itself count distinct
(date, state) groups per bucket rather than rows — the embedded
`resample` path over `groupKeys`).  The claimed `sum(y) = number of
input rows` fails either way. -/
theorem series_daily_returns_no_data_not_rows :
    generate_graphical_report c4Rows c4Req =
      Except.ok (graphErr c4Req "No data found for the specified year.") ∧
    (graphErr c4Req "No data found for the specified year.").y.sum = 0 ∧
    (c4Rows.length : Int) = 2 ∧
    (graphErr c4Req "No data found for the specified year.").y.sum ≠
      (c4Rows.length : Int) :=
  ⟨rfl, rfl, rfl, by decide⟩

/-- C10 counterexample: a graphical-report request carrying the empty
string as its state receives a response whose `state` field is `"all"`,
not the requested `""`: the echo is not verbatim for every response,
because Python truthiness treats `""` like an absent state. -/
theorem graph_echo_empty_state_not_verbatim :
    generate_graphical_report [] emptyStateReq =
      Except.ok (graphErr emptyStateReq "Invalid year provided.") ∧
    emptyStateReq.state = some "" ∧
    (graphErr emptyStateReq "Invalid year provided.").state = "all" ∧
    "all" ≠ "" :=
  ⟨rfl, rfl, rfl, by decide⟩

/-- C10 (amended): every response the graphical-report handler returns,
in the error branches and the success branch alike, echoes the request:
`granularity` is the requested granularity unchanged (even when invalid),
and `state` is the requested state — or `"all"` when the request gave no
state or the empty string (`stateEcho`). -/
theorem graph_response_echoes_request (t : List Row) (req : GraphRequest)
    (resp : GraphResponse)
    (h : generate_graphical_report t req = Except.ok resp) :
    resp.state = stateEcho req.state ∧
    resp.granularity = req.granularity := by
  unfold generate_graphical_report at h
  split at h
  · cases h; exact ⟨rfl, rfl⟩
  · split at h
    · cases h; exact ⟨rfl, rfl⟩
    · split at h
      · cases h; exact ⟨rfl, rfl⟩
      · split at h
        · cases h; exact ⟨rfl, rfl⟩
        · split at h
          · cases h
          · cases h; exact ⟨rfl, rfl⟩

/-- C10 witness: the echo theorem applied to a concrete request (year
2022, daily, no state) over a one-row store, whose response is the
no-data payload the real wiring produces. -/
theorem graph_response_echoes_request_witness :
    (graphErr c10Req "No data found for the specified year.").state =
      stateEcho c10Req.state ∧
    (graphErr c10Req "No data found for the specified year.").granularity =
      c10Req.granularity :=
  graph_response_echoes_request [fullRow] c10Req
    (graphErr c10Req "No data found for the specified year.") rfl

/-- C3 counterexample: the summary endpoint does not validate its years:
requesting year 2030 is not rejected with a structured error — the
handler calls `db.get_data(2030)`, receives `None`, and
`year_data.fillna(-1)` raises an `AttributeError` out of the endpoint. -/
theorem summary_year_2030_raises :
    summarize_data [] ⟨[2030], ["UTI"]⟩ =
      Except.error "AttributeError: NoneType object has no attribute fillna" :=
  rfl

/-- C3 (amended): the statistical-report and graphical-report endpoints
reject a year outside {2021..2025} or a granularity outside
{D, ME, SE, M} with a structured error whose value does not depend on the
store (so no store read is involved); the summary endpoint performs no
such validation of its own, and a year unsupported by `get_data` makes it
raise an uncaught `AttributeError` instead of returning a structured
error. -/
theorem validation_rejection_amended :
    (∀ (t : List Row) (req : ReportRequest),
      req.year ∉ validReportYears →
      generate_report t req = errReport "Invalid year provided.") ∧
    (∀ (t : List Row) (req : ReportRequest),
      req.year ∈ validReportYears →
      req.granularity ∉ validGranularities →
      generate_report t req = errReport "Invalid granularity provided.") ∧
    (∀ (t : List Row) (req : GraphRequest),
      req.year ∉ validReportYears →
      generate_graphical_report t req =
        Except.ok (graphErr req "Invalid year provided.")) ∧
    (∀ (t : List Row) (req : GraphRequest),
      req.year ∈ validReportYears →
      req.granularity ∉ validGranularities →
      generate_graphical_report t req =
        Except.ok (graphErr req "Invalid granularity provided.")) ∧
    (∀ (t : List Row) (y : Int) (cols : List String),
      y ∉ SragDb.allowedYears →
      summarize_data t ⟨[y], cols⟩ =
        Except.error
          "AttributeError: NoneType object has no attribute fillna") := by
  refine ⟨?_, ?_, ?_, ?_, ?_⟩
  · intro t req h
    unfold generate_report
    rw [if_pos h]
  · intro t req hy hg
    unfold generate_report
    rw [if_neg (not_not_intro hy), if_pos hg]
  · intro t req h
    unfold generate_graphical_report
    rw [if_pos h]
  · intro t req hy hg
    unfold generate_graphical_report
    rw [if_neg (not_not_intro hy), if_pos hg]
  · intro t y cols h
    have hgd : SrcDb.get_data t (SrcDb.PyArg.i y) = none := by
      unfold SrcDb.get_data
      split <;> rfl
    simp [summarize_data, hgd, List.foldlM, Except.map]

/-- C3 witness: the rejection theorem instantiated concretely — year 2030
rejected by the report endpoint, granularity "W" rejected by the
graphical endpoint, year 2030 raising in the summary endpoint. -/
theorem validation_rejection_amended_witness :
    generate_report []
        { year := 2030, starting_month := 1, ending_month := 2 } =
      errReport "Invalid year provided." ∧
    generate_graphical_report [] { year := 2022, granularity := "W" } =
      Except.ok (graphErr { year := 2022, granularity := "W" }
        "Invalid granularity provided.") ∧
    summarize_data [] ⟨[2030], ["HOSPITAL"]⟩ =
      Except.error
        "AttributeError: NoneType object has no attribute fillna" :=
  ⟨validation_rejection_amended.1 []
      { year := 2030, starting_month := 1, ending_month := 2 } (by decide),
    validation_rejection_amended.2.2.2.1 []
      { year := 2022, granularity := "W" } (by decide) (by decide),
    validation_rejection_amended.2.2.2.2 [] 2030 ["HOSPITAL"] (by decide)⟩

/-- C8: for a latest assistant turn carrying tool calls, the tools step
(1) transitions back to the assistant node along the unconditional
`tools -> assistant` edge, (2) produces exactly one tool-result turn per
call, in order, and (3) for every call whose invocation raises, that
turn's content is the `{error: message, tool: tool name}` dict, tagged
with the call's identifier; the step itself is a total function, so it
never re-raises and the run does not abort. -/
theorem tools_step_error_recovery {Args : Type}
    (coerce : String → Args → Args)
    (invoke : String → Args → Except String String)
    (llm : List (Msg Args) → List (Msg Args))
    (msgs : List (Msg Args)) (content : String)
    (calls : List (ToolCall Args))
    (hlast : msgs.getLast? = some (.ai content calls)) :
    (graphStep coerce invoke llm (.toolsNode, msgs)).1 =
      GraphNode.assistantNode ∧
    (graphStep coerce invoke llm (.toolsNode, msgs)).2 =
      (call_tools coerce invoke calls).map Msg.toolResult ∧
    (call_tools coerce invoke calls).length = calls.length ∧
    (∀ (i : Nat) (c : ToolCall Args) (e : String), calls[i]? = some c →
      invoke c.name (coerce c.name c.args) = Except.error e →
      (call_tools coerce invoke calls)[i]? =
        some { content := ToolContent.errorPayload e c.name,
               tool_call_id := c.id, name := c.name }) := by
  refine ⟨rfl, ?_, ?_, ?_⟩
  · simp [graphStep, lastToolCalls, hlast]
  · simp [call_tools]
  · intro i c e hc herr
    simp [call_tools, List.getElem?_map, hc, herr]

/-- C8 witness: the recovery theorem applied to a one-call assistant turn
whose tool raises `"boom"`: the step returns to the assistant node and
the produced turn carries the error/tool dict with the call's id. -/
theorem tools_step_error_recovery_witness :
    (graphStep demoCoerce demoInvoke demoLlm
        (GraphNode.toolsNode, demoMsgs)).1 = GraphNode.assistantNode ∧
    (call_tools demoCoerce demoInvoke [demoCall])[0]? =
      some { content :=
               ToolContent.errorPayload "boom" "generate_statistical_report",
             tool_call_id := "call_1",
             name := "generate_statistical_report" } := by
  obtain ⟨h1, _, _, h4⟩ := tools_step_error_recovery demoCoerce demoInvoke
    demoLlm demoMsgs "go" [demoCall] rfl
  exact ⟨h1, h4 0 demoCall "boom" rfl rfl⟩

end DataSus
